import Mathlib

set_option maxHeartbeats 1600000
set_option maxRecDepth 8192

namespace L8zk

/-! Byte and character utilities.

The TypeScript source manipulates JS strings and Uint8Array byte buffers.
JS strings are modeled as List Char and byte buffers as List Nat whose
entries are below 256. -/

abbrev Bytes := List Nat

/-- JS String.prototype.split with a one-character separator. -/
def splitOnChar (sep : Char) : List Char → List (List Char)
  | [] => [[]]
  | c :: rest =>
    if c = sep then [] :: splitOnChar sep rest
    else
      match splitOnChar sep rest with
      | [] => [[c]]
      | h :: t => (c :: h) :: t

/-- Whether the first list begins with the second list. -/
def beginsWith : List Char → List Char → Bool
  | _, [] => true
  | [], _ :: _ => false
  | c :: cs, p :: ps => c = p && beginsWith cs ps

/-- Helper for jsIndexOf: search for pat from position i onward. -/
def jsIndexOfFrom (pat : List Char) : List Char → Nat → Int
  | [], i => if beginsWith [] pat then (i : Int) else -1
  | c :: cs, i =>
    if beginsWith (c :: cs) pat then (i : Int) else jsIndexOfFrom pat cs (i + 1)

/-- JS String.prototype.indexOf: index of the first occurrence of pat in hay, or -1. -/
def jsIndexOf (hay pat : List Char) : Int := jsIndexOfFrom pat hay 0

/-- JS String.prototype.includes. -/
def jsIncludes (hay pat : List Char) : Bool := jsIndexOf hay pat ≥ 0

/-- TextEncoder().encode modeled bytewise; exact for ASCII strings, which covers
every string the code base feeds to it (base64url segments and JSON texts). -/
def textToBytes (s : List Char) : Bytes := s.map Char.toNat

/-- TextDecoder().decode modeled bytewise; exact for ASCII byte payloads. -/
def bytesToText (bs : Bytes) : List Char := bs.map Char.ofNat

/-- Map a fallible function over a list, failing if any element fails.
Models a JS map whose body may throw. -/
def optionMapList (f : α → Option β) : List α → Option (List β)
  | [] => some []
  | a :: l =>
    match f a with
    | none => none
    | some b =>
      match optionMapList f l with
      | none => none
      | some bs => some (b :: bs)

/-! Base64 and Base64URL, from src/utils/base64.ts.

base64Encode corresponds to Buffer.from(bytes).toString("base64") resp. btoa:
standard alphabet with '=' padding.  base64Decode normalizes through
base64UrlToBase64 and then decodes like atob: trailing '=' padding is
stripped, any remaining character outside the standard alphabet is an
InvalidCharacterError (modeled as none), as is a residual length of
1 mod 4. -/

def b64Alphabet : List Char :=
  "ABCDEFGHIJKLMNOPQRSTUVWXYZabcdefghijklmnopqrstuvwxyz0123456789+/".toList

def b64Char (n : Nat) : Char := b64Alphabet.getD n 'A'

def b64Index (c : Char) : Option Nat :=
  let i := b64Alphabet.indexOf c
  if i < b64Alphabet.length then some i else none

/-- Group bytes into base64 sextets (3 bytes to 4 sextets, with partial tails). -/
def toSextets : List Nat → List Nat
  | b1 :: b2 :: b3 :: rest =>
    b1 / 4 :: ((b1 % 4) * 16 + b2 / 16) :: ((b2 % 16) * 4 + b3 / 64) :: (b3 % 64) ::
      toSextets rest
  | [b1, b2] => [b1 / 4, (b1 % 4) * 16 + b2 / 16]  ++ [(b2 % 16) * 4]
  | [b1] => [b1 / 4, (b1 % 4) * 16]
  | [] => []

/-- Regroup sextets into bytes (4 sextets to 3 bytes, partial tails dropped). -/
def fromSextets : List Nat → List Nat
  | s1 :: s2 :: s3 :: s4 :: rest =>
    (s1 * 4 + s2 / 16) :: ((s2 % 16) * 16 + s3 / 4) :: ((s3 % 4) * 64 + s4) ::
      fromSextets rest
  | [s1, s2, s3] => [s1 * 4 + s2 / 16, (s2 % 16) * 16 + s3 / 4]
  | [s1, s2] => [s1 * 4 + s2 / 16]
  | _ => []

/-- base64Encode: standard base64 text of a byte array, with '=' padding. -/
def base64Encode (bytes : Bytes) : List Char :=
  let chars := (toSextets bytes).map b64Char
  chars ++ List.replicate ((4 - chars.length % 4) % 4) '='

def stdToUrlChar (c : Char) : Char :=
  if c = '+' then '-' else if c = '/' then '_' else c

def urlToStdChar (c : Char) : Char :=
  if c = '-' then '+' else if c = '_' then '/' else c

/-- Remove the maximal trailing run of '=' characters (JS replace of an
equals-run anchored at the end). -/
def dropTrailingEq (l : List Char) : List Char :=
  (l.reverse.dropWhile (fun c => c == '=')).reverse

/-- base64ToBase64Url from the source: map '+' to '-', '/' to '_', strip padding. -/
def base64ToBase64Url (s : List Char) : List Char :=
  dropTrailingEq (s.map stdToUrlChar)

/-- base64UrlToBase64 from the source: map '-' to '+', '_' to '/', re-add padding. -/
def base64UrlToBase64 (s : List Char) : List Char :=
  let base64 := s.map urlToStdChar
  base64 ++ List.replicate ((4 - base64.length % 4) % 4) '='

/-- Browser atob: strips trailing '=' padding, fails on any character outside
the standard alphabet or on a residual length of 1 mod 4, decodes sextets. -/
def atobDecode (s : List Char) : Option Bytes :=
  let core := dropTrailingEq s
  if core.length % 4 = 1 then none
  else
    match optionMapList b64Index core with
    | none => none
    | some sx => some (fromSextets sx)

def base64Decode (s : List Char) : Option Bytes :=
  atobDecode (base64UrlToBase64 s)

def base64UrlDecode (s : List Char) : Option Bytes :=
  base64Decode (base64UrlToBase64 s)

def base64UrlEncode (bytes : Bytes) : List Char :=
  base64ToBase64Url (base64Encode bytes)

/-- base64DecodeString: decode base64 text to a (modeled ASCII) string. -/
def base64DecodeString (s : List Char) : Option (List Char) :=
  (base64Decode s).map bytesToText

/-- base64ToBigInt from the source: big-endian fold of the decoded bytes.
The JS original would throw on undecodable input; every call site passes a
validated base64 field, so the failure branch is modeled as 0. -/
def base64ToBigInt (s : List Char) : Nat :=
  ((base64Decode s).getD []).foldl (fun acc b => acc * 256 + b) 0


/-! JSON values and a model of JSON.parse / JSON.stringify for the subset of
JSON the code base exchanges: objects, arrays, strings without escape
sequences, integers, booleans and null.  Every concrete credential, policy
and disclosure in the repository and its tests stays inside this subset. -/

inductive Json where
  | null
  | boolVal (b : Bool)
  | num (n : Int)
  | str (s : List Char)
  | arr (elems : List Json)
  | obj (fields : List (List Char × Json))

def braceOpen : Char := Char.ofNat 123

def braceClose : Char := Char.ofNat 125

def skipWs : List Char → List Char
  | [] => []
  | c :: cs =>
    if c = ' ' ∨ c = '\n' ∨ c = '\t' ∨ c = '\r' then skipWs cs else c :: cs

def scanJsonString : List Char → Option (List Char × List Char)
  | [] => none
  | c :: cs =>
    if c = '"' then some ([], cs)
    else if c = '\\' then none
    else
      match scanJsonString cs with
      | some (s, rest) => some (c :: s, rest)
      | none => none

def takeDigits : List Char → (List Char × List Char)
  | [] => ([], [])
  | c :: cs =>
    if c.isDigit then
      let p := takeDigits cs
      (c :: p.1, p.2)
    else ([], c :: cs)

def digitsToNat (ds : List Char) : Nat :=
  ds.foldl (fun acc c => acc * 10 + (c.toNat - 48)) 0

mutual

def parseJsonVal : Nat → List Char → Option (Json × List Char)
  | 0, _ => none
  | fuel + 1, input =>
    match skipWs input with
    | [] => none
    | c :: cs =>
      if c = 'n' then
        if beginsWith cs "ull".toList then some (.null, cs.drop 3) else none
      else if c = 't' then
        if beginsWith cs "rue".toList then some (.boolVal true, cs.drop 3) else none
      else if c = 'f' then
        if beginsWith cs "alse".toList then some (.boolVal false, cs.drop 4) else none
      else if c = '"' then
        match scanJsonString cs with
        | some (s, rest) => some (.str s, rest)
        | none => none
      else if c = '[' then
        match skipWs cs with
        | ']' :: rest => some (.arr [], rest)
        | other =>
          match parseJsonElems fuel other with
          | some (es, rest) => some (.arr es, rest)
          | none => none
      else if c = braceOpen then
        match skipWs cs with
        | d :: rest =>
          if d = braceClose then some (.obj [], rest)
          else
            match parseJsonFields fuel (d :: rest) with
            | some (fs, rest2) => some (.obj fs, rest2)
            | none => none
        | [] => none
      else if c = '-' then
        match takeDigits cs with
        | ([], _) => none
        | (ds, rest) => some (.num (-(digitsToNat ds : Int)), rest)
      else if c.isDigit then
        let p := takeDigits (c :: cs)
        some (.num (digitsToNat p.1 : Int), p.2)
      else none

def parseJsonElems : Nat → List Char → Option (List Json × List Char)
  | 0, _ => none
  | fuel + 1, input =>
    match parseJsonVal fuel input with
    | none => none
    | some (v, rest) =>
      match skipWs rest with
      | ',' :: more =>
        match parseJsonElems fuel more with
        | some (es, rest2) => some (v :: es, rest2)
        | none => none
      | d :: more => if d = ']' then some ([v], more) else none
      | [] => none

def parseJsonFields : Nat → List Char → Option (List (List Char × Json) × List Char)
  | 0, _ => none
  | fuel + 1, input =>
    match skipWs input with
    | c :: cs =>
      if c = '"' then
        match scanJsonString cs with
        | some (k, rest) =>
          match skipWs rest with
          | ':' :: more =>
            match parseJsonVal fuel more with
            | none => none
            | some (v, rest2) =>
              match skipWs rest2 with
              | ',' :: more2 =>
                match parseJsonFields fuel more2 with
                | some (fs, rest3) => some ((k, v) :: fs, rest3)
                | none => none
              | d :: more2 => if d = braceClose then some ([(k, v)], more2) else none
              | [] => none
          | _ => none
        | none => none
      else none
    | [] => none

end

/-- JSON.parse modeled on the JSON subset described above. -/
def jsonParse (s : List Char) : Option Json :=
  match parseJsonVal (2 * s.length + 4) s with
  | some (v, rest) => if (skipWs rest).isEmpty then some v else none
  | none => none

/-- JS property access on a parsed JSON value. -/
def objLookup (j : Json) (key : List Char) : Option Json :=
  match j with
  | .obj kvs => (kvs.find? (fun kv => decide (kv.1 = key))).map (fun kv => kv.2)
  | _ => none

/-- JS String() conversion for the kinds of values that appear as claim names. -/
def jsToString : Json → List Char
  | .str s => s
  | .num n => (toString n).toList
  | .boolVal true => "true".toList
  | .boolVal false => "false".toList
  | .null => "null".toList
  | .arr _ => []
  | .obj _ => "[object Object]".toList

mutual

def jsonStringify : Json → List Char
  | .null => "null".toList
  | .boolVal true => "true".toList
  | .boolVal false => "false".toList
  | .num n => (toString n).toList
  | .str s => '"' :: s ++ ['"']
  | .arr es => '[' :: jsonStringifyList es ++ [']']
  | .obj fs => braceOpen :: jsonStringifyFields fs ++ [braceClose]

def jsonStringifyList : List Json → List Char
  | [] => []
  | [e] => jsonStringify e
  | e :: rest => jsonStringify e ++ ',' :: jsonStringifyList rest

def jsonStringifyFields : List (List Char × Json) → List Char
  | [] => []
  | [(k, v)] => '"' :: k ++ '"' :: ':' :: jsonStringify v
  | (k, v) :: rest =>
    ('"' :: k ++ '"' :: ':' :: jsonStringify v) ++ ',' :: jsonStringifyFields rest

end

/-! The SDK error taxonomy from src/errors.ts, as a tagged error type. -/

inductive SdkError where
  | credentialError (msg : List Char)
  | proofError (msg : List Char)
  | policyError (msg : List Char)
  | configError (msg : List Char)
  | jsRuntimeError (msg : List Char)
deriving DecidableEq

/-! The SD-JWT credential parser from src/credential/parser.ts. -/

structure ECPublicKey where
  kty : List Char := []
  crv : List Char := []
  x : List Char := []
  y : List Char := []

structure SDJWTDisclosure where
  salt : Json
  claimName : List Char
  claimValue : Json
  encoded : List Char
  hash : List Char

structure ParsedSDJWT where
  header : Json
  payload : Json
  signature : Bytes
  rawHeader : List Char
  rawPayload : List Char
  rawSignature : List Char
  disclosures : List SDJWTDisclosure
  keyBinding : Option (List Char)

def hexDigit (n : Nat) : Char := "0123456789abcdef".toList.getD n '0'

def bytesToHex (bs : Bytes) : List Char :=
  (bs.map (fun b => [hexDigit (b / 16), hexDigit (b % 16)])).flatten

/-- computeDisclosureHash: hex text of the SHA-256 digest of the encoded
disclosure.  SHA-256 itself lives in src/utils/crypto.ts, which is not among
the delivered sources; it is threaded through as an opaque pure function. -/
def computeDisclosureHash (sha256Hash : Bytes → Bytes) (encoded : List Char) :
    List Char :=
  bytesToHex (sha256Hash (textToBytes encoded))

/-- Map a fallible step over a list, propagating the first thrown error,
like a JS Array.prototype.map whose body may throw. -/
def exceptMapList (f : α → Except ε β) : List α → Except ε (List β)
  | [] => .ok []
  | a :: l =>
    match f a with
    | .error e => .error e
    | .ok b =>
      match exceptMapList f l with
      | .error e => .error e
      | .ok bs => .ok (b :: bs)

def parseDisclosure (sha256Hash : Bytes → Bytes) (encoded : List Char) :
    Except SdkError SDJWTDisclosure :=
  let failMsg := "Failed to parse disclosure: ".toList ++ encoded
  match base64DecodeString encoded with
  | none => .error (.credentialError failMsg)
  | some decoded =>
    match jsonParse decoded with
    | some (.arr parsed) =>
      if parsed.length < 2 then .error (.credentialError failMsg)
      else
        .ok { salt := parsed.getD 0 .null
              claimName := jsToString (parsed.getD 1 .null)
              claimValue := if parsed.length > 2 then parsed.getD 2 .null
                            else parsed.getD 1 .null
              encoded := encoded
              hash := computeDisclosureHash sha256Hash encoded }
    | some _ => .error (.credentialError failMsg)
    | none => .error (.credentialError failMsg)

/-- parseSDJWT from src/credential/parser.ts.  Every tilde part after the
first is fed to the disclosure parser (after dropping empty parts); the
keyBinding field is set to the last tilde part exactly when that part
contains a dot. -/
def parseSDJWT (sha256Hash : Bytes → Bytes) (credential : List Char) :
    Except SdkError ParsedSDJWT :=
  let parts := splitOnChar '~' credential
  let jwtPart := parts.getD 0 []
  let disclosureParts := (parts.drop 1).filter (fun p => p.length > 0)
  let jwtSegments := splitOnChar '.' jwtPart
  if jwtSegments.length ≠ 3 then
    .error (.credentialError "Invalid SD-JWT format: expected 3 JWT segments".toList)
  else
    let rawHeader := jwtSegments.getD 0 []
    let rawPayload := jwtSegments.getD 1 []
    let rawSignature := jwtSegments.getD 2 []
    match (base64DecodeString rawHeader).bind jsonParse with
    | none => .error (.credentialError "Failed to parse SD-JWT header".toList)
    | some header =>
      match (base64DecodeString rawPayload).bind jsonParse with
      | none => .error (.credentialError "Failed to parse SD-JWT payload".toList)
      | some payload =>
        let algStr : Option (List Char) :=
          match objLookup header "alg".toList with
          | some (.str s) => some s
          | _ => none
        if algStr ≠ some "ES256".toList then
          .error (.credentialError ("Unsupported algorithm: ".toList ++
            (match objLookup header "alg".toList with
             | some v => jsToString v
             | none => "undefined".toList) ++
            ". Only ES256 is supported.".toList))
        else
          match base64UrlDecode rawSignature with
          | none => .error (.jsRuntimeError "InvalidCharacterError".toList)
          | some signature =>
            match exceptMapList (parseDisclosure sha256Hash) disclosureParts with
            | .error e => .error e
            | .ok disclosures =>
              let lastPart := parts.getD (parts.length - 1) []
              let keyBinding :=
                if jsIncludes lastPart ['.'] then some lastPart else none
              .ok { header, payload, signature, rawHeader, rawPayload, rawSignature,
                    disclosures, keyBinding }

/-! Metadata and claim extraction from src/credential/parser.ts. -/

structure CredentialMetadata where
  format : List Char
  issuer : List Char
  subject : Option (List Char)
  issuedAt : Option Int
  expiresAt : Option Int
  availableClaims : List (List Char)
  deviceBound : Bool

def strFieldD (j : Json) (k : List Char) : List Char :=
  match objLookup j k with
  | some (.str s) => s
  | _ => []

/-- The cnf.jwk device-binding key of the payload, when present and truthy. -/
def cnfJwk (payload : Json) : Option ECPublicKey :=
  match objLookup payload "cnf".toList with
  | some cnf =>
    match objLookup cnf "jwk".toList with
    | some Json.null => none
    | some (Json.boolVal false) => none
    | some jwk =>
      some { kty := strFieldD jwk "kty".toList, crv := strFieldD jwk "crv".toList,
             x := strFieldD jwk "x".toList, y := strFieldD jwk "y".toList }
    | none => none
  | none => none

def reservedPayloadKeys : List (List Char) :=
  ["iss", "sub", "iat", "exp", "cnf"].map String.toList

def extractMetadata (parsed : ParsedSDJWT) : CredentialMetadata :=
  let payloadKeys : List (List Char) :=
    match parsed.payload with
    | .obj kvs => kvs.map (fun kv => kv.1)
    | _ => []
  let fromPayload := payloadKeys.filter (fun k =>
    !(beginsWith k ['_']) && !(reservedPayloadKeys.contains k))
  let availableClaims := parsed.disclosures.foldl
    (fun acc d => if acc.contains d.claimName then acc else acc ++ [d.claimName])
    fromPayload
  { format := "sd-jwt".toList
    issuer := (match objLookup parsed.payload "iss".toList with
      | some (.str s) => if s.isEmpty then "unknown".toList else s
      | _ => "unknown".toList)
    subject := (match objLookup parsed.payload "sub".toList with
      | some (.str s) => some s
      | _ => none)
    issuedAt := (match objLookup parsed.payload "iat".toList with
      | some (.num n) => if n ≠ 0 then some (n * 1000) else none
      | _ => none)
    expiresAt := (match objLookup parsed.payload "exp".toList with
      | some (.num n) => if n ≠ 0 then some (n * 1000) else none
      | _ => none)
    availableClaims
    deviceBound := (cnfJwk parsed.payload).isSome }

structure CircuitParams where
  maxMessageLength : Nat
  maxB64PayloadLength : Nat := 0
  maxMatches : Nat
  maxSubstringLength : Nat
  maxClaimsLength : Nat

structure ExtractedClaims where
  keyBindingX : Nat
  keyBindingY : Nat
  ageClaim : List Nat
  rawClaims : List (List Char × Json)

def extractAgeClaim (parsed : ParsedSDJWT) (params : CircuitParams) : List Nat :=
  let decodedLen := params.maxClaimsLength * 3 / 4
  match parsed.disclosures.find? (fun d =>
      d.claimName == "roc_birthday".toList || d.claimName == "birthdate".toList) with
  | none => List.replicate decodedLen 0
  | some d =>
    let claimStr := jsonStringify (.arr [d.salt, .str d.claimName, d.claimValue])
    (claimStr.take decodedLen).map Char.toNat ++
      List.replicate (decodedLen - claimStr.length) 0

def extractClaimsForCircuit (parsed : ParsedSDJWT) (params : CircuitParams) :
    ExtractedClaims :=
  let rawClaims := parsed.disclosures.map (fun d => (d.claimName, d.claimValue))
  match cnfJwk parsed.payload with
  | some jwk =>
    { keyBindingX := base64ToBigInt jwk.x, keyBindingY := base64ToBigInt jwk.y,
      ageClaim := extractAgeClaim parsed params, rawClaims }
  | none =>
    { keyBindingX := 0, keyBindingY := 0,
      ageClaim := extractAgeClaim parsed params, rawClaims }

structure MatchData where
  matchSubstring : List Bytes
  matchLength : List Nat
  matchIndex : List Int
  matchesCount : Nat
deriving DecidableEq

/-- The pattern list built by extractMatches: the two device-key coordinate
markers followed by the digest of each disclosure that fits into the
remaining slots.  The slice in the source silently caps the disclosures at
maxMatches - 2; the model covers params with maxMatches at least 2, where
the JS slice end index is nonnegative. -/
def matchPatterns (parsed : ParsedSDJWT) (params : CircuitParams) :
    List (List Char) :=
  ["\"x\":\"".toList, "\"y\":\"".toList] ++
    (parsed.disclosures.take (params.maxMatches - 2)).map
      (fun d => d.hash.take params.maxSubstringLength)

/-- One slot of extractMatches: the zero-padded pattern bytes, the pattern
length, and the index of the pattern in the decoded payload with a missing
pattern mapped to 0. -/
def matchEntry (params : CircuitParams) (payload pattern : List Char) :
    Bytes × Nat × Int :=
  (pattern.map Char.toNat ++
     List.replicate (params.maxSubstringLength - pattern.length) 0,
   pattern.length,
   if jsIndexOf payload pattern ≥ 0 then jsIndexOf payload pattern else 0)

/-- Slot data built by extractMatches once the payload text is decoded. -/
def extractMatchesData (parsed : ParsedSDJWT) (params : CircuitParams)
    (payload : List Char) : MatchData :=
  let patterns := matchPatterns parsed params
  let entries := patterns.map (matchEntry params payload)
  let padCount := params.maxMatches - entries.length
  { matchSubstring := entries.map (fun e => e.1) ++
      List.replicate padCount (List.replicate params.maxSubstringLength 0)
    matchLength := entries.map (fun e => e.2.1) ++ List.replicate padCount 0
    matchIndex := entries.map (fun e => e.2.2) ++ List.replicate padCount 0
    matchesCount := patterns.length }

/-- extractMatches from src/credential/parser.ts. -/
def extractMatches (parsed : ParsedSDJWT) (params : CircuitParams) :
    Except SdkError MatchData :=
  match base64DecodeString parsed.rawPayload with
  | none => .error (.jsRuntimeError "InvalidCharacterError".toList)
  | some payload => .ok (extractMatchesData parsed params payload)

structure ClaimsData where
  claims : List Bytes
  claimLengths : List Nat
  decodeFlags : List Nat
  ageClaimIndex : Nat
deriving DecidableEq

/-- encodeClaims from src/credential/parser.ts.  Slots 0 and 1 are reserved
zero slots; one slot per disclosure is added while fewer than maxMatches
slots exist, so only the first maxMatches - 2 disclosures are encoded; the
rest are dropped without an error. -/
def encodeClaims (parsed : ParsedSDJWT) (params : CircuitParams) : ClaimsData :=
  let used := parsed.disclosures.take (params.maxMatches - 2)
  let reserved : List Bytes :=
    List.replicate 2 (List.replicate params.maxClaimsLength 0)
  let disclosureClaims := used.map (fun d =>
    (d.encoded.take params.maxClaimsLength).map Char.toNat ++
      List.replicate (params.maxClaimsLength - d.encoded.length) 0)
  let padCount := params.maxMatches - (2 + used.length)
  let ageClaimIndex := used.enum.foldl (fun acc p =>
    if p.2.claimName == "roc_birthday".toList || p.2.claimName == "birthdate".toList
    then p.1 + 2 else acc) 0
  { claims := reserved ++ disclosureClaims ++
      List.replicate padCount (List.replicate params.maxClaimsLength 0)
    claimLengths := [0, 0] ++ used.map (fun d => d.encoded.length) ++
      List.replicate padCount 0
    decodeFlags := [0, 0] ++ List.replicate used.length 1 ++
      List.replicate padCount 0
    ageClaimIndex }

/-! The prepare phase from src/prover/prepare.ts. -/

/-- Little-endian 32-byte serialization of one witness value, as produced by
the hex-slicing loop in the source for values below 2 to the power 256,
which covers every value the circuits consume. -/
def natTo32LE (v : Nat) : Bytes :=
  (List.range 32).map (fun j => v / 256 ^ j % 256)

structure PrepareInputs where
  message : List Nat
  messageLength : Nat
  periodIndex : Nat
  sig_r : Nat
  sig_s_inverse : Nat
  pubKeyX : Nat
  pubKeyY : Nat
  matchesCount : Nat
  matchSubstring : List Bytes
  matchLength : List Nat
  matchIndex : List Int
  claims : List Bytes
  claimLengths : List Nat
  decodeFlags : List Nat
  ageClaimIndex : Nat

/-- generatePrepareInputs from the source.  ECDSA signature parsing (an
elliptic-curve inversion from the missing crypto utility module) is an
opaque pure collaborator returning the r and s-inverse scalars.  The signed
message always contains a period, so the period index is nonnegative. -/
def generatePrepareInputs (parseECDSASignature : Bytes → Nat × Nat)
    (parsed : ParsedSDJWT) (params : CircuitParams) :
    Except SdkError PrepareInputs :=
  let message := parsed.rawHeader ++ '.' :: parsed.rawPayload
  let messageBytes := textToBytes message
  let paddedMessage := messageBytes ++
    List.replicate (params.maxMessageLength - messageBytes.length) 0
  let sig := parseECDSASignature parsed.signature
  let periodIndex := (jsIndexOf message ['.']).toNat
  match extractMatches parsed params with
  | .error e => .error e
  | .ok md =>
    let cd := encodeClaims parsed params
    .ok { message := paddedMessage, messageLength := messageBytes.length, periodIndex,
          sig_r := sig.1, sig_s_inverse := sig.2, pubKeyX := 0, pubKeyY := 0,
          matchesCount := md.matchesCount, matchSubstring := md.matchSubstring,
          matchLength := md.matchLength, matchIndex := md.matchIndex,
          claims := cd.claims, claimLengths := cd.claimLengths,
          decodeFlags := cd.decodeFlags, ageClaimIndex := cd.ageClaimIndex }

/-- generatePrepareWitness: flatten all inputs in circuit order and
serialize each value as 32 little-endian bytes. -/
def generatePrepareWitness (inputs : PrepareInputs) : Bytes :=
  let witnessData : List Nat :=
    inputs.message ++
    [inputs.messageLength, inputs.periodIndex, inputs.sig_r, inputs.sig_s_inverse,
     inputs.pubKeyX, inputs.pubKeyY, inputs.matchesCount] ++
    (inputs.matchSubstring).flatten ++
    inputs.matchLength ++
    inputs.matchIndex.map Int.toNat ++
    (inputs.claims).flatten ++
    inputs.claimLengths ++
    inputs.decodeFlags ++
    [inputs.ageClaimIndex]
  (witnessData.map natTo32LE).flatten

structure ProveResult where
  proof : Bytes
  inst : Bytes
  witness : Bytes

structure ReblindResult where
  proof : Bytes
  inst : Bytes
  witness : Bytes
  sharedCommitment : Bytes

/-- The WASM proving backend interface used by prepare, show and verify.
Proving, reblinding and verification are deterministic in their inputs; all
randomness enters through the generate_blinds output. -/
structure WasmApi where
  prove_prepare : Bytes → Bytes → ProveResult
  prove_show : Bytes → Bytes → ProveResult
  generate_blinds : Nat → Bytes
  reblind : Bytes → Bytes → Bytes → Bytes → ReblindResult
  verify : Bytes → Bytes → Bool

inductive DeviceBindingConfig where
  | flag (b : Bool)
  | withKeys (publicKey : ECPublicKey) (privateKey : Option Bytes)

structure PrepareOptions where
  credential : List Char
  format : List Char := "sd-jwt".toList
  deviceBinding : Option DeviceBindingConfig := none
  issuerPublicKey : Option ECPublicKey := none

structure PreparedState where
  id : List Char
  encryptedCredential : Bytes
  prepareProof : Bytes
  prepareInstance : Bytes
  prepareWitness : Bytes
  sharedBlinds : Bytes
  deviceKey : Option ECPublicKey
  metadata : CredentialMetadata
  claims : ExtractedClaims
  createdAt : Int

def generateCredentialId (sha256Hash : Bytes → Bytes) (credential : List Char) :
    List Char :=
  base64UrlEncode ((sha256Hash (textToBytes credential)).take 16)

def encryptCredential (randomBytes : Nat → Bytes) (credential : List Char) : Bytes :=
  let bytes := textToBytes credential
  let key := randomBytes bytes.length
  key ++ List.zipWith (fun b k => b ^^^ k) bytes key

/-- DID resolution stub from the source: always resolves to nothing. -/
def resolveIssuerPublicKey (_issuer : Option (List Char)) : Option ECPublicKey :=
  none

/-- prepareCredential from src/prover/prepare.ts.  The proving backend, the
SHA-256 hash, the ECDSA signature parser and the random generator are
opaque pure collaborators; Date.now() is the now argument.  Note that the
function returns its PreparedState without invoking the verify operation of
the backend on the fresh proof. -/
def prepareCredential (sha256Hash : Bytes → Bytes)
    (parseECDSASignature : Bytes → Nat × Nat) (randomBytes : Nat → Bytes)
    (wasm : WasmApi) (now : Int) (options : PrepareOptions)
    (params : CircuitParams) (provingKey : Bytes) :
    Except SdkError PreparedState :=
  if options.format ≠ "sd-jwt".toList then
    .error (.credentialError ("Unsupported credential format: ".toList ++
      options.format ++ ". Only 'sd-jwt' is currently supported.".toList))
  else
    match parseSDJWT sha256Hash options.credential with
    | .error e => .error e
    | .ok parsed =>
      let metadata := extractMetadata parsed
      let claims := extractClaimsForCircuit parsed params
      let deviceKey : Option ECPublicKey :=
        match options.deviceBinding with
        | some (.withKeys pk _) => some pk
        | some (.flag true) => cnfJwk parsed.payload
        | _ => none
      let issuerPK :=
        match options.issuerPublicKey with
        | some k => some k
        | none => resolveIssuerPublicKey
            (match objLookup parsed.payload "iss".toList with
             | some (.str s) => some s
             | _ => none)
      match issuerPK with
      | none => .error (.credentialError
          "Issuer public key not provided and could not be resolved".toList)
      | some _ =>
        match generatePrepareInputs parseECDSASignature parsed params with
        | .error e => .error e
        | .ok inputs0 =>
          let inputs := { inputs0 with pubKeyX := claims.keyBindingX,
                                       pubKeyY := claims.keyBindingY }
          let witness := generatePrepareWitness inputs
          let proveResult := wasm.prove_prepare provingKey witness
          let sharedBlinds := wasm.generate_blinds 1
          let id := generateCredentialId sha256Hash options.credential
          let encryptedCredential := encryptCredential randomBytes options.credential
          .ok { id, encryptedCredential,
                prepareProof := proveResult.proof,
                prepareInstance := proveResult.inst,
                prepareWitness := proveResult.witness,
                sharedBlinds, deviceKey,
                metadata := { metadata with deviceBound := deviceKey.isSome },
                claims, createdAt := now }

/-! Policies and policy comparison from the verification module
(src/prover/verify.ts, delivered as an unnamed source part). -/

/-- One policy condition: a numeric bound, a set-membership test over string
values, or a literal equality value (string or number).  The source compares
conditions by their JSON.stringify text; stringification is injective on
this representation, so structural equality models the comparison. -/
inductive PredicateCondition where
  | gte (n : Int)
  | gt (n : Int)
  | lte (n : Int)
  | lt (n : Int)
  | inSet (vs : List (List Char))
  | ninSet (vs : List (List Char))
  | litStr (s : List Char)
  | litNum (n : Int)
deriving DecidableEq

/-- A policy object: claim names mapped to conditions, in insertion order.
A none condition models a key whose value is the JS undefined. -/
structure Policy where
  entries : List (List Char × Option PredicateCondition)
deriving DecidableEq

structure PolicyMatchResult where
  valid : Bool
  error : Option (List Char) := none
deriving DecidableEq

/-- JS property read on a policy object: the binding for the key, if any. -/
def policyLookup (p : Policy) (key : List Char) :
    Option (Option PredicateCondition) :=
  (p.entries.find? (fun kv => decide (kv.1 = key))).map (fun kv => kv.2)

def comparePoliciesLoop (actual : Policy) :
    List (List Char × Option PredicateCondition) → PolicyMatchResult
  | [] => { valid := true }
  | (_, none) :: rest => comparePoliciesLoop actual rest
  | (key, some expectedCondition) :: rest =>
    match policyLookup actual key with
    | none =>
      { valid := false,
        error := some ("Missing policy condition for '".toList ++ key ++
          "'".toList) }
    | some none =>
      { valid := false,
        error := some ("Missing policy condition for '".toList ++ key ++
          "'".toList) }
    | some (some actualCondition) =>
      if expectedCondition = actualCondition then comparePoliciesLoop actual rest
      else
        { valid := false,
          error := some ("Policy condition mismatch for '".toList ++ key ++
            "'".toList) }

/-- comparePolicies from the verification module: every defined condition of
expected must be bound in actual to a structurally identical condition. -/
def comparePolicies (expected actual : Policy) : PolicyMatchResult :=
  comparePoliciesLoop actual expected.entries

/-! Proof objects, serialization and verification from the verification
module. -/

def PROTOCOL_VERSION : List Char := "1.0.0".toList

def DEFAULT_MAX_PROOF_AGE : Int := 5 * 60 * 1000

structure Proof where
  prepareProof : Bytes
  showProof : Bytes
  sharedCommitment : Bytes
  policy : Policy
  nonce : List Char
  timestamp : Int
  version : List Char
deriving DecidableEq

structure SerializedProof where
  prepareProof : List Char
  showProof : List Char
  sharedCommitment : List Char
  policy : Policy
  nonce : List Char
  timestamp : Int
  version : List Char
deriving DecidableEq

structure VerifyOptions where
  expectedPolicy : Option Policy := none
  maxProofAge : Option Int := none
  expectedNonce : Option (List Char) := none

structure VerificationResult where
  valid : Bool
  error : Option (List Char) := none
  verifiedPolicy : Option Policy := none
  timestamp : Option Int := none
deriving DecidableEq

def intToText (n : Int) : List Char := (toString n).toList

/-- deserializeProof: decode the three base64url byte fields, copying the
rest; a decode failure is the thrown error the callers catch. -/
def deserializeProof (serialized : SerializedProof) : Except (List Char) Proof :=
  match base64UrlDecode serialized.prepareProof with
  | none => .error "InvalidCharacterError".toList
  | some pp =>
    match base64UrlDecode serialized.showProof with
    | none => .error "InvalidCharacterError".toList
    | some sp =>
      match base64UrlDecode serialized.sharedCommitment with
      | none => .error "InvalidCharacterError".toList
      | some sc =>
        .ok { prepareProof := pp, showProof := sp, sharedCommitment := sc,
              policy := serialized.policy, nonce := serialized.nonce,
              timestamp := serialized.timestamp, version := serialized.version }

def serializeProof (proof : Proof) : SerializedProof :=
  { prepareProof := base64UrlEncode proof.prepareProof
    showProof := base64UrlEncode proof.showProof
    sharedCommitment := base64UrlEncode proof.sharedCommitment
    policy := proof.policy
    nonce := proof.nonce
    timestamp := proof.timestamp
    version := proof.version }

/-- Cryptographic tail of verifyProof: the backend verify call on each of
the two sub-proofs, one at a time, against the same verifying key. -/
def verifyCryptoPhase (wasmVerify : Bytes → Bytes → Bool) (verifyingKey : Bytes)
    (dp : Proof) : VerificationResult :=
  if !wasmVerify dp.prepareProof verifyingKey then
    { valid := false, error := some "Prepare proof verification failed".toList }
  else if !wasmVerify dp.showProof verifyingKey then
    { valid := false, error := some "Show proof verification failed".toList }
  else
    { valid := true, verifiedPolicy := some dp.policy,
      timestamp := some dp.timestamp }

/-- Cheap checks and crypto phase of verifyProof on an already-deserialized
proof.  Date.now() is the now argument and the WASM verify operation is the
wasmVerify argument. -/
def verifyChecksOn (wasmVerify : Bytes → Bytes → Bool) (now : Int)
    (verifyingKey : Bytes) (options : VerifyOptions) (dp : Proof) :
    Except (List Char) VerificationResult :=
    if dp.version ≠ PROTOCOL_VERSION then
      .ok { valid := false,
            error := some ("Unsupported proof version: ".toList ++ dp.version ++
              ". Expected: ".toList ++ PROTOCOL_VERSION) }
    else if now - dp.timestamp > options.maxProofAge.getD DEFAULT_MAX_PROOF_AGE then
      .ok { valid := false,
            error := some ("Proof expired. Age: ".toList ++
              intToText (now - dp.timestamp) ++ "ms, Max: ".toList ++
              intToText (options.maxProofAge.getD DEFAULT_MAX_PROOF_AGE) ++
              "ms".toList) }
    else if (match options.expectedNonce with
             | some en => !en.isEmpty && dp.nonce != en
             | none => false) then
      .ok { valid := false, error := some "Nonce mismatch".toList }
    else
      match options.expectedPolicy with
      | some expectedPolicy =>
        if !(comparePolicies expectedPolicy dp.policy).valid then
          .ok { valid := false,
                error := some ("Policy mismatch: ".toList ++
                  (comparePolicies expectedPolicy dp.policy).error.getD
                    "undefined".toList) }
        else .ok (verifyCryptoPhase wasmVerify verifyingKey dp)
      | none => .ok (verifyCryptoPhase wasmVerify verifyingKey dp)

/-- Try-block body of verifyProof: deserialize if needed, then run the
checks; the proof argument is either an in-memory Proof or its serialized
form, as distinguished by the isSerializedProof check in the source. -/
def verifyProofTry (wasmVerify : Bytes → Bytes → Bool) (now : Int)
    (proof : Proof ⊕ SerializedProof) (verifyingKey : Bytes)
    (options : VerifyOptions) : Except (List Char) VerificationResult :=
  match (match proof with
         | .inl p => Except.ok p
         | .inr s => deserializeProof s) with
  | .error e => .error e
  | .ok dp => verifyChecksOn wasmVerify now verifyingKey options dp

/-- verifyProof from the verification module: the try body plus the catch
that converts any thrown error into a non-throwing result.  Note that the
sharedCommitment field of the proof is never read: the two sub-proofs are
passed to the backend verify operation one at a time and no commitment
comparison between them is performed. -/
def verifyProof (wasmVerify : Bytes → Bytes → Bool) (now : Int)
    (proof : Proof ⊕ SerializedProof) (verifyingKey : Bytes)
    (options : VerifyOptions) : VerificationResult :=
  match verifyProofTry wasmVerify now proof verifyingKey options with
  | .ok r => r
  | .error e =>
    { valid := false, error := some ("Verification error: ".toList ++ e) }

structure QuickVerifyResult where
  valid : Bool
  error : Option (List Char) := none
deriving DecidableEq

/-- Cheap checks of quickVerify on an already-deserialized proof. -/
def quickChecksOn (now : Int) (options : VerifyOptions) (dp : Proof) :
    Except (List Char) QuickVerifyResult :=
    if dp.version ≠ PROTOCOL_VERSION then
      .ok { valid := false,
            error := some ("Unsupported version: ".toList ++ dp.version) }
    else if now - dp.timestamp > options.maxProofAge.getD DEFAULT_MAX_PROOF_AGE then
      .ok { valid := false, error := some "Proof expired".toList }
    else if (match options.expectedNonce with
             | some en => !en.isEmpty && dp.nonce != en
             | none => false) then
      .ok { valid := false, error := some "Nonce mismatch".toList }
    else
      match options.expectedPolicy with
      | some expectedPolicy =>
        if !(comparePolicies expectedPolicy dp.policy).valid then
          .ok { valid := false,
                error := (comparePolicies expectedPolicy dp.policy).error }
        else .ok { valid := true }
      | none => .ok { valid := true }

/-- Try-block body of quickVerify: the cheap checks alone, over the
deserialize-if-needed step. -/
def quickVerifyTry (now : Int) (proof : Proof ⊕ SerializedProof)
    (options : VerifyOptions) : Except (List Char) QuickVerifyResult :=
  match (match proof with
         | .inl p => Except.ok p
         | .inr s => deserializeProof s) with
  | .error e => .error e
  | .ok dp => quickChecksOn now options dp

/-- quickVerify from the verification module, with its catch clause. -/
def quickVerify (now : Int) (proof : Proof ⊕ SerializedProof)
    (options : VerifyOptions) : QuickVerifyResult :=
  match quickVerifyTry now proof options with
  | .ok r => r
  | .error e => { valid := false, error := some e }

/-! The show phase from src/prover/show.ts. -/

structure DateYMD where
  year : Int
  month : Int
  day : Int

structure ShowOptions where
  policy : Policy
  nonce : List Char
  currentDate : Option DateYMD := none

def joinCommaSpace (xs : List (List Char)) : List Char :=
  List.intercalate ", ".toList xs

/-- validatePolicy from src/prover/show.ts, iterating the policy entries. -/
def validatePolicyLoop (state : PreparedState) :
    List (List Char × Option PredicateCondition) → Except SdkError Unit
  | [] => .ok ()
  | (_, none) :: rest => validatePolicyLoop state rest
  | (key, some _) :: rest =>
    if key = "age".toList then
      let hasBirthdate :=
        state.metadata.availableClaims.contains "roc_birthday".toList ||
        state.metadata.availableClaims.contains "birthdate".toList ||
        state.claims.ageClaim.any (fun v => v != 0)
      if hasBirthdate then validatePolicyLoop state rest
      else .error (.policyError
        "Cannot prove age: no birthdate claim available in credential".toList)
    else if state.metadata.availableClaims.contains key ||
        state.claims.rawClaims.any (fun kv => kv.1 == key) then
      validatePolicyLoop state rest
    else
      .error (.policyError ("Claim '".toList ++ key ++
        "' not available in credential. Available: ".toList ++
        joinCommaSpace state.metadata.availableClaims))

def validatePolicy (policy : Policy) (state : PreparedState) :
    Except SdkError Unit :=
  validatePolicyLoop state policy.entries

structure ShowCircuitInputs where
  deviceKeyX : Nat
  deviceKeyY : Nat
  sigR : Nat
  sigSInverse : Nat
  messageHash : Nat
  claim : List Nat
  currentYear : Int
  currentMonth : Int
  currentDay : Int

/-- generateShowInputs from the source.  Device-signature parsing and nonce
hashing come from the missing crypto utility module and are opaque pure
collaborators. -/
def generateShowInputs (parseSignatureForCircuit : Bytes → Nat × Nat)
    (hashMessageForCircuit : List Char → Nat) (state : PreparedState)
    (nonce : List Char) (deviceSignature : Option Bytes) (date : DateYMD)
    (params : CircuitParams) : ShowCircuitInputs :=
  let decodedLen := params.maxClaimsLength * 3 / 4
  let sigVals : Nat × Nat × Nat :=
    match deviceSignature with
    | some ds =>
      let parsed := parseSignatureForCircuit ds
      (parsed.1, parsed.2, hashMessageForCircuit nonce)
    | none => (0, 0, 0)
  let claim := state.claims.ageClaim.take decodedLen ++
    List.replicate (decodedLen - state.claims.ageClaim.length) 0
  { deviceKeyX := state.claims.keyBindingX
    deviceKeyY := state.claims.keyBindingY
    sigR := sigVals.1, sigSInverse := sigVals.2.1, messageHash := sigVals.2.2
    claim
    currentYear := date.year, currentMonth := date.month, currentDay := date.day }

/-- generateShowWitness: inputs in circuit order, each value as 32
little-endian bytes; the calendar components are nonnegative in use. -/
def generateShowWitness (inputs : ShowCircuitInputs) : Bytes :=
  let witnessData : List Nat :=
    [inputs.deviceKeyX, inputs.deviceKeyY, inputs.messageHash, inputs.sigR,
     inputs.sigSInverse] ++ inputs.claim ++
    [inputs.currentYear.toNat, inputs.currentMonth.toNat, inputs.currentDay.toNat]
  (witnessData.map natTo32LE).flatten

/-- showCredential from src/prover/show.ts.  Date.now() and the wall-clock
date are explicit arguments; device signing is an opaque collaborator.  The
reblind call receives state.sharedBlinds, the blind material generated once
at prepare time: no fresh blinding material is drawn in this function. -/
def showCredential (wasm : WasmApi) (sign : List Char → Bytes → Bytes)
    (parseSignatureForCircuit : Bytes → Nat × Nat)
    (hashMessageForCircuit : List Char → Nat) (now : Int) (wallDate : DateYMD)
    (state : PreparedState) (options : ShowOptions) (params : CircuitParams)
    (provingKey : Bytes) (devicePrivateKey : Option Bytes) :
    Except SdkError Proof :=
  match validatePolicy options.policy state with
  | .error e => .error e
  | .ok _ =>
    let date := options.currentDate.getD wallDate
    let reblindedPrepare := wasm.reblind provingKey state.prepareInstance
      state.prepareWitness state.sharedBlinds
    let deviceSignature : Option Bytes :=
      match devicePrivateKey, state.deviceKey with
      | some dpk, some _ => some (sign options.nonce dpk)
      | _, _ => none
    let showInputs := generateShowInputs parseSignatureForCircuit
      hashMessageForCircuit state options.nonce deviceSignature date params
    let showWitness := generateShowWitness showInputs
    let showResult := wasm.prove_show provingKey showWitness
    .ok { prepareProof := reblindedPrepare.proof
          showProof := showResult.proof
          sharedCommitment := reblindedPrepare.sharedCommitment
          policy := options.policy, nonce := options.nonce
          timestamp := now, version := PROTOCOL_VERSION }

/-- reblindPreparedState from src/prover/show.ts: generates new blinds and
reblinds with them.  Present in the source but not invoked by
showCredential. -/
def reblindPreparedState (wasm : WasmApi) (state : PreparedState)
    (provingKey : Bytes) : ReblindResult :=
  let newBlinds := wasm.generate_blinds 1
  wasm.reblind provingKey state.prepareInstance state.prepareWitness newBlinds

/-! The SDK main class prepare flow (OpenAC.prepare) over the native Rust
backend. -/

structure PreparedCredential where
  id : List Char
  credential : List Char
  metadata : CredentialMetadata
  devicePublicKey : Option ECPublicKey := none
  devicePrivateKey : Option Bytes := none
  issuerPublicKey : Option ECPublicKey := none
  prepareProof : Option Bytes := none
  prepareInstance : Option Bytes := none
  sharedBlinds : Option Bytes := none
  prepareComplete : Bool
  showReady : Bool

/-- Observable outcomes of the native Rust backend calls made during the SDK
prepare and show flows, as one oracle record. -/
structure NativeOracle where
  verifyPrepare : Bool
  verifyShow : Bool
  prepareProofBytes : Bytes
  prepareInstanceBytes : Bytes
  sharedBlindsBytes : Bytes
  showProofBytes : Bytes
  generatedKeyPair : Bytes × ECPublicKey
  freshId : List Char

abbrev CredentialStore := List (List Char × PreparedCredential)

/-- Map.set on the credential store: bind id, replacing any previous binding. -/
def storeSet (store : CredentialStore) (id : List Char)
    (cred : PreparedCredential) : CredentialStore :=
  (id, cred) :: store.filter (fun kv => !(kv.1 == id))

/-- JS truthiness of the deviceBinding option (false and undefined are falsy). -/
def deviceBindingTruthy : Option DeviceBindingConfig → Bool
  | some (.flag b) => b
  | some (.withKeys _ _) => true
  | none => false

/-- OpenAC.prepare from the SDK main class.  The setup, blind-generation,
prove and reblind calls have no observable result beyond the oracle fields;
the verify self-check gates the recording of the prepared credential.  The
credential store is passed and returned explicitly: every error path
returns it unchanged, so a failed self-check leaves the holder store
exactly as it was. -/
def OpenAC.prepare (sha256Hash : Bytes → Bytes) (native : NativeOracle)
    (store : CredentialStore) (options : PrepareOptions) :
    CredentialStore × Except SdkError (List Char) :=
  match parseSDJWT sha256Hash options.credential with
  | .error e => (store, .error e)
  | .ok parsed =>
    let metadata := extractMetadata parsed
    let issuerPK : Option ECPublicKey :=
      match options.issuerPublicKey with
      | some k => some k
      | none => cnfJwk parsed.payload
    match issuerPK with
    | none => (store, .error (.credentialError
        "Issuer public key required. Provide via options.issuerPublicKey".toList))
    | some issuerKey =>
      let deviceKeys : Option (Bytes × ECPublicKey) :=
        match options.deviceBinding with
        | some (.withKeys pk priv) => some (priv.getD (List.replicate 32 0), pk)
        | some (.flag true) => some native.generatedKeyPair
        | _ => none
      let id := native.freshId
      if native.verifyPrepare = false then
        (store, .error (.proofError "Prepare proof verification failed".toList))
      else
        let prepared : PreparedCredential :=
          { id, credential := options.credential
            metadata := { metadata with
              deviceBound := deviceBindingTruthy options.deviceBinding }
            devicePublicKey := deviceKeys.map (fun p => p.2)
            devicePrivateKey := deviceKeys.map (fun p => p.1)
            issuerPublicKey := some issuerKey
            prepareProof := some native.prepareProofBytes
            prepareInstance := some native.prepareInstanceBytes
            sharedBlinds := some native.sharedBlindsBytes
            prepareComplete := true, showReady := true }
        (storeSet store id prepared, .ok id)

/-! Concrete sample values used by the verification theorems below. -/

def paramsSmall : CircuitParams :=
  { maxMessageLength := 16, maxB64PayloadLength := 0, maxMatches := 4,
    maxSubstringLength := 5, maxClaimsLength := 8 }

def polEmpty : Policy := { entries := [] }

def polAge18 : Policy := { entries := [("age".toList, some (.gte 18))] }

def polAge21 : Policy := { entries := [("age".toList, some (.gte 21))] }

def metaEx : CredentialMetadata :=
  { format := "sd-jwt".toList, issuer := "iss".toList, subject := none,
    issuedAt := none, expiresAt := none, availableClaims := [],
    deviceBound := false }

def stateEx : PreparedState :=
  { id := [], encryptedCredential := [], prepareProof := [1],
    prepareInstance := [2], prepareWitness := [3], sharedBlinds := [4],
    deviceKey := none, metadata := metaEx,
    claims := { keyBindingX := 0, keyBindingY := 0, ageClaim := [],
                rawClaims := [] },
    createdAt := 0 }

def wasmEx : WasmApi :=
  { prove_prepare := fun _ _ => { proof := [1], inst := [2], witness := [3] }
    prove_show := fun _ _ => { proof := [3], inst := [], witness := [] }
    generate_blinds := fun _ => [4]
    reblind := fun _ _ _ _ =>
      { proof := [7], inst := [8], witness := [9], sharedCommitment := [5] }
    verify := fun _ _ => true }

def wasmNeverValid : WasmApi :=
  { prove_prepare := fun _ _ => { proof := [], inst := [], witness := [] }
    prove_show := fun _ _ => { proof := [], inst := [], witness := [] }
    generate_blinds := fun _ => []
    reblind := fun _ _ _ _ =>
      { proof := [], inst := [], witness := [], sharedCommitment := [] }
    verify := fun _ _ => false }

def dateEx : DateYMD := { year := 2026, month := 1, day := 1 }

def prShow1 : Proof :=
  { prepareProof := [7], showProof := [3], sharedCommitment := [5],
    policy := polEmpty, nonce := "n1".toList, timestamp := 0,
    version := PROTOCOL_VERSION }

def prShow2 : Proof :=
  { prepareProof := [7], showProof := [3], sharedCommitment := [5],
    policy := polEmpty, nonce := "n2".toList, timestamp := 0,
    version := PROTOCOL_VERSION }

def proofEx : Proof :=
  { prepareProof := [0, 1, 255], showProof := [17], sharedCommitment := [9, 8],
    policy := polAge18, nonce := "n1".toList, timestamp := 123,
    version := PROTOCOL_VERSION }

def discSample (name : String) : SDJWTDisclosure :=
  { salt := .str "s".toList, claimName := name.toList,
    claimValue := .str "v".toList, encoded := ("enc-" ++ name).toList,
    hash := "abcdef0123".toList }

def parsedThreeDisc : ParsedSDJWT :=
  { header := .obj [("alg".toList, .str "ES256".toList)], payload := .obj [],
    signature := [], rawHeader := [], rawPayload := "e30".toList,
    rawSignature := [], keyBinding := none,
    disclosures := [discSample "c1", discSample "c2", discSample "c3"] }

def parsedNoX : ParsedSDJWT :=
  { header := .obj [("alg".toList, .str "ES256".toList)], payload := .obj [],
    signature := [], rawHeader := [], rawPayload := "e30".toList,
    rawSignature := [], keyBinding := none, disclosures := [] }

def jwtEx : List Char := "eyJhbGciOiJFUzI1NiJ9.e30.c2ln".toList

def discEncEx : List Char := "WyJzMSIsIm5tIiwidmwiXQ".toList

def kbSegEx : List Char := jwtEx

def credWithKbEx : List Char := jwtEx ++ '~' :: discEncEx ++ '~' :: kbSegEx

def prepOptsEx : PrepareOptions :=
  { credential := jwtEx, issuerPublicKey := some {} }

def nativeFailEx : NativeOracle :=
  { verifyPrepare := false, verifyShow := true, prepareProofBytes := [],
    prepareInstanceBytes := [], sharedBlindsBytes := [], showProofBytes := [],
    generatedKeyPair := ([], {}), freshId := "cred_1".toList }

def sBadSerialized : SerializedProof :=
  { prepareProof := "!".toList, showProof := [], sharedCommitment := [],
    policy := polEmpty, nonce := [], timestamp := 0,
    version := PROTOCOL_VERSION }

/-! Round-trip lemmas for the base64 model. -/

theorem fromSextets_toSextets :
    ∀ bs : Bytes, (∀ b ∈ bs, b < 256) → fromSextets (toSextets bs) = bs
  | b1 :: b2 :: b3 :: rest, h => by
    have h1 : b1 < 256 := h b1 (by simp)
    have h2 : b2 < 256 := h b2 (by simp)
    have h3 : b3 < 256 := h b3 (by simp)
    have ih := fromSextets_toSextets rest (fun b hb => h b (by simp [hb]))
    simp only [toSextets, fromSextets, ih, List.cons.injEq, and_true]
    refine ⟨by omega, by omega, by omega⟩
  | [b1, b2], h => by
    have h1 : b1 < 256 := h b1 (by simp)
    have h2 : b2 < 256 := h b2 (by simp)
    simp only [toSextets, List.append_eq, List.cons_append, List.nil_append,
      fromSextets, List.cons.injEq, and_true]
    refine ⟨by omega, by omega⟩
  | [b1], h => by
    have h1 : b1 < 256 := h b1 (by simp)
    simp only [toSextets, fromSextets, List.cons.injEq, and_true]
    omega
  | [], _ => rfl

theorem toSextets_lt_64 :
    ∀ bs : Bytes, (∀ b ∈ bs, b < 256) → ∀ s ∈ toSextets bs, s < 64
  | b1 :: b2 :: b3 :: rest, h => by
    have h1 : b1 < 256 := h b1 (by simp)
    have h2 : b2 < 256 := h b2 (by simp)
    have h3 : b3 < 256 := h b3 (by simp)
    have ih := toSextets_lt_64 rest (fun b hb => h b (by simp [hb]))
    intro s hs
    simp only [toSextets, List.mem_cons] at hs
    rcases hs with rfl | rfl | rfl | rfl | hs
    · omega
    · omega
    · omega
    · omega
    · exact ih s hs
  | [b1, b2], h => by
    have h1 : b1 < 256 := h b1 (by simp)
    have h2 : b2 < 256 := h b2 (by simp)
    intro s hs
    simp only [toSextets, List.append_eq, List.cons_append, List.nil_append,
      List.mem_cons, List.not_mem_nil, or_false] at hs
    rcases hs with rfl | rfl | rfl
    · omega
    · omega
    · omega
  | [b1], h => by
    have h1 : b1 < 256 := h b1 (by simp)
    intro s hs
    simp only [toSextets, List.mem_cons, List.not_mem_nil, or_false] at hs
    rcases hs with rfl | rfl
    · omega
    · omega
  | [], _ => by intro s hs; simp [toSextets] at hs

theorem toSextets_length_mod :
    ∀ bs : Bytes, (toSextets bs).length % 4 ≠ 1
  | b1 :: b2 :: b3 :: rest => by
    have ih := toSextets_length_mod rest
    simp only [toSextets, List.length_cons]
    omega
  | [b1, b2] => by simp [toSextets]
  | [b1] => by simp [toSextets]
  | [] => by simp [toSextets]

theorem b64Index_b64Char : ∀ n, n < 64 → b64Index (b64Char n) = some n := by
  decide

theorem b64Char_mem_alphabet (n : Nat) : b64Char n ∈ b64Alphabet := by
  by_cases hn : n < 64
  · revert hn
    revert n
    decide
  · have hlen : b64Alphabet.length = 64 := by decide
    have : b64Char n = 'A' := by
      unfold b64Char
      exact List.getD_eq_default _ _ (by omega)
    rw [this]
    decide

theorem url_std_char_roundtrip :
    ∀ c ∈ b64Alphabet, urlToStdChar (stdToUrlChar c) = c := by decide

theorem urlToStdChar_id_on_alphabet :
    ∀ c ∈ b64Alphabet, urlToStdChar c = c := by decide

theorem stdToUrlChar_ne_eq_on_alphabet :
    ∀ c ∈ b64Alphabet, stdToUrlChar c ≠ '=' := by decide

theorem dropWhile_eq_of_ne (l : List Char) (h : ∀ c ∈ l, c ≠ '=') :
    l.dropWhile (fun c => c == '=') = l := by
  cases l with
  | nil => rfl
  | cons a t =>
    have ha : (a == '=') = false := by
      have := h a (by simp)
      simp [this]
    simp [List.dropWhile_cons, ha]

theorem dropWhile_replicate_append (k : Nat) (l : List Char) :
    (List.replicate k '=' ++ l).dropWhile (fun c => c == '=') =
      l.dropWhile (fun c => c == '=') := by
  induction k with
  | zero => simp
  | succ n ih => simp [List.replicate_succ, List.dropWhile_cons, ih]

theorem dropTrailingEq_append_replicate (l : List Char) (k : Nat)
    (h : ∀ c ∈ l, c ≠ '=') :
    dropTrailingEq (l ++ List.replicate k '=') = l := by
  unfold dropTrailingEq
  rw [List.reverse_append, List.reverse_replicate, dropWhile_replicate_append,
    dropWhile_eq_of_ne _ (fun c hc => h c (List.mem_reverse.mp hc)),
    List.reverse_reverse]

theorem optionMapList_b64Index (sx : List Nat) (h : ∀ s ∈ sx, s < 64) :
    optionMapList b64Index (sx.map b64Char) = some sx := by
  induction sx with
  | nil => rfl
  | cons a t ih =>
    have ha := b64Index_b64Char a (h a (by simp))
    simp only [List.map_cons, optionMapList, ha,
      ih (fun s hs => h s (by simp [hs]))]

/-- Main round-trip: base64UrlDecode inverts base64UrlEncode on byte arrays. -/
theorem base64UrlDecode_base64UrlEncode (bytes : Bytes)
    (h : ∀ b ∈ bytes, b < 256) :
    base64UrlDecode (base64UrlEncode bytes) = some bytes := by
  have hsx : ∀ s ∈ toSextets bytes, s < 64 := toSextets_lt_64 bytes h
  have hchars_ne : ∀ c ∈ (toSextets bytes).map b64Char, c ≠ '=' := by
    intro c hc
    rcases List.mem_map.mp hc with ⟨s, _, rfl⟩
    intro hcontra
    have := b64Char_mem_alphabet s
    rw [hcontra] at this
    exact absurd this (by decide)
  have hurl_ne : ∀ c ∈ ((toSextets bytes).map b64Char).map stdToUrlChar, c ≠ '=' := by
    intro c hc
    rcases List.mem_map.mp hc with ⟨d, hd, rfl⟩
    rcases List.mem_map.mp hd with ⟨s, _, rfl⟩
    exact stdToUrlChar_ne_eq_on_alphabet _ (b64Char_mem_alphabet s)
  -- Step A: the encoded form is the url-mapped sextet characters.
  have henc : base64UrlEncode bytes =
      ((toSextets bytes).map b64Char).map stdToUrlChar := by
    unfold base64UrlEncode base64Encode base64ToBase64Url
    rw [List.map_append, List.map_replicate]
    have : stdToUrlChar '=' = '=' := by decide
    rw [this, dropTrailingEq_append_replicate _ _ hurl_ne]
  -- Step B: the first normalization restores the standard characters plus padding.
  have hmapback : (((toSextets bytes).map b64Char).map stdToUrlChar).map urlToStdChar =
      (toSextets bytes).map b64Char := by
    rw [List.map_map, List.map_map]
    apply List.map_congr_left
    intro s hs
    exact url_std_char_roundtrip _ (b64Char_mem_alphabet s)
  have hnorm1 : base64UrlToBase64 (base64UrlEncode bytes) =
      (toSextets bytes).map b64Char ++
        List.replicate ((4 - ((toSextets bytes).map b64Char).length % 4) % 4) '=' := by
    rw [henc]
    unfold base64UrlToBase64
    rw [hmapback]
  -- Step C: the second normalization is the identity on the padded form.
  have hmapid : ((toSextets bytes).map b64Char).map urlToStdChar =
      (toSextets bytes).map b64Char := by
    rw [List.map_map]
    apply List.map_congr_left
    intro s hs
    exact urlToStdChar_id_on_alphabet _ (b64Char_mem_alphabet s)
  have hnorm2 : base64UrlToBase64 (base64UrlToBase64 (base64UrlEncode bytes)) =
      (toSextets bytes).map b64Char ++
        List.replicate ((4 - ((toSextets bytes).map b64Char).length % 4) % 4) '=' := by
    rw [hnorm1]
    unfold base64UrlToBase64
    rw [List.map_append, List.map_replicate, hmapid]
    have hurleq : urlToStdChar '=' = '=' := by decide
    rw [hurleq]
    have hlen : ((toSextets bytes).map b64Char ++
        List.replicate ((4 - ((toSextets bytes).map b64Char).length % 4) % 4) '=').length % 4
        = 0 := by
      simp only [List.length_append, List.length_replicate]
      omega
    rw [List.append_assoc]
    congr 1
    rw [← List.replicate_add]
    congr 1
    omega
  -- Step D: atob strips padding and decodes the sextets.
  unfold base64UrlDecode base64Decode
  rw [hnorm2]
  unfold atobDecode
  rw [dropTrailingEq_append_replicate _ _ hchars_ne]
  have hlenmod : (((toSextets bytes).map b64Char).length) % 4 ≠ 1 := by
    rw [List.length_map]
    exact toSextets_length_mod bytes
  rw [if_neg hlenmod, optionMapList_b64Index _ hsx]
  exact congrArg some (fromSextets_toSextets bytes h)

/-! Helper lemmas about policy comparison. -/

theorem comparePoliciesLoop_valid_iff (actual : Policy) :
    ∀ entries : List (List Char × Option PredicateCondition),
      (comparePoliciesLoop actual entries).valid = true ↔
        ∀ key oc, (key, oc) ∈ entries → ∀ c, oc = some c →
          policyLookup actual key = some (some c)
  | [] => by simp [comparePoliciesLoop]
  | (key, none) :: rest => by
    rw [comparePoliciesLoop, comparePoliciesLoop_valid_iff actual rest]
    constructor
    · intro h k oc hmem c hc
      rcases List.mem_cons.mp hmem with heq | hmem2
      · cases heq; cases hc
      · exact h k oc hmem2 c hc
    · intro h k oc hmem c hc
      exact h k oc (List.mem_cons_of_mem _ hmem) c hc
  | (key, some c0) :: rest => by
    rw [comparePoliciesLoop]
    split
    next heq =>
      constructor
      · intro h; exact Bool.noConfusion h
      · intro h
        have h0 := h key (some c0) (List.mem_cons_self _ _) c0 rfl
        rw [heq] at h0
        cases h0
    next heq =>
      constructor
      · intro h; exact Bool.noConfusion h
      · intro h
        have h0 := h key (some c0) (List.mem_cons_self _ _) c0 rfl
        rw [heq] at h0
        cases h0
    next ac heq =>
      split
      next hceq =>
        subst hceq
        rw [comparePoliciesLoop_valid_iff actual rest]
        constructor
        · intro h k oc hmem c hc
          rcases List.mem_cons.mp hmem with heq2 | hmem2
          · cases heq2
            injection hc with hc2
            subst hc2
            exact heq
          · exact h k oc hmem2 c hc
        · intro h k oc hmem c hc
          exact h k oc (List.mem_cons_of_mem _ hmem) c hc
      next hcne =>
        constructor
        · intro h; exact Bool.noConfusion h
        · intro h
          have h0 := h key (some c0) (List.mem_cons_self _ _) c0 rfl
          rw [heq] at h0
          injection h0 with h1
          injection h1 with h2
          exact absurd h2.symm hcne

theorem comparePoliciesLoop_invalid_error (actual : Policy) :
    ∀ entries, (comparePoliciesLoop actual entries).valid = false →
      ∃ key c, (key, some c) ∈ entries ∧
        ((comparePoliciesLoop actual entries).error =
            some ("Missing policy condition for '".toList ++ key ++ "'".toList) ∨
         (comparePoliciesLoop actual entries).error =
            some ("Policy condition mismatch for '".toList ++ key ++ "'".toList))
  | [] => fun h => absurd h (by simp [comparePoliciesLoop])
  | (key, none) :: rest => by
    rw [comparePoliciesLoop]
    intro h
    obtain ⟨k, c, hmem, herr⟩ := comparePoliciesLoop_invalid_error actual rest h
    exact ⟨k, c, List.mem_cons_of_mem _ hmem, herr⟩
  | (key, some c0) :: rest => by
    rw [comparePoliciesLoop]
    split
    · intro _; exact ⟨key, c0, List.mem_cons_self _ _, Or.inl rfl⟩
    · intro _; exact ⟨key, c0, List.mem_cons_self _ _, Or.inl rfl⟩
    · split
      · intro h
        obtain ⟨k, c, hmem, herr⟩ := comparePoliciesLoop_invalid_error actual rest h
        exact ⟨k, c, List.mem_cons_of_mem _ hmem, herr⟩
      · intro _; exact ⟨key, c0, List.mem_cons_self _ _, Or.inr rfl⟩

theorem comparePoliciesLoop_error_isSome (actual : Policy)
    (entries : List (List Char × Option PredicateCondition))
    (h : (comparePoliciesLoop actual entries).valid = false) :
    (comparePoliciesLoop actual entries).error.isSome = true := by
  obtain ⟨k, c, _, herr⟩ := comparePoliciesLoop_invalid_error actual entries h
  rcases herr with herr | herr <;> rw [herr] <;> rfl

theorem find?_key_of_nodup :
    ∀ (l : List (List Char × Option PredicateCondition)),
      (l.map (fun kv => kv.1)).Nodup →
      ∀ (key : List Char) (oc : Option PredicateCondition), (key, oc) ∈ l →
        l.find? (fun kv => decide (kv.1 = key)) = some (key, oc)
  | [], _, key, oc, hmem => absurd hmem (List.not_mem_nil _)
  | (k0, oc0) :: rest, hnd, key, oc, hmem => by
    rw [List.map_cons] at hnd
    have hnd2 := List.nodup_cons.mp hnd
    rcases List.mem_cons.mp hmem with heq | hmem2
    · cases heq
      exact List.find?_cons_of_pos _ (by simp)
    · have hk : k0 ≠ key := by
        intro hk0
        subst hk0
        exact hnd2.1 (List.mem_map.mpr ⟨(k0, oc), hmem2, rfl⟩)
      rw [List.find?_cons_of_neg _ (by simp [hk])]
      exact find?_key_of_nodup rest hnd2.2 key oc hmem2

theorem policyLookup_of_mem_nodup (p : Policy)
    (h : (p.entries.map (fun kv => kv.1)).Nodup)
    (key : List Char) (oc : Option PredicateCondition)
    (hmem : (key, oc) ∈ p.entries) : policyLookup p key = some oc := by
  unfold policyLookup
  rw [find?_key_of_nodup p.entries h key oc hmem]
  rfl

/-- C7: policy matching is valid exactly when every key of the expected
policy carrying a defined condition is bound in the actual policy to a
structurally identical condition; a failure names the offending key in its
error message; a policy expecting age at least 21 does not match a proof
carrying age at least 18; and every well-formed policy matches itself. -/
theorem C7_policy_matching :
    (∀ expected actual : Policy,
      (comparePolicies expected actual).valid = true ↔
        ∀ key oc, (key, oc) ∈ expected.entries → ∀ c, oc = some c →
          policyLookup actual key = some (some c)) ∧
    (∀ expected actual : Policy,
      (comparePolicies expected actual).valid = false →
        ∃ key c, (key, some c) ∈ expected.entries ∧
          ((comparePolicies expected actual).error =
              some ("Missing policy condition for '".toList ++ key ++ "'".toList) ∨
           (comparePolicies expected actual).error =
              some ("Policy condition mismatch for '".toList ++ key ++
                "'".toList))) ∧
    (∀ p : Policy, (p.entries.map (fun kv => kv.1)).Nodup →
      (comparePolicies p p).valid = true) ∧
    comparePolicies polAge21 polAge18 =
      { valid := false,
        error := some "Policy condition mismatch for 'age'".toList } := by
  refine ⟨?_, ?_, ?_, by decide⟩
  · intro expected actual
    exact comparePoliciesLoop_valid_iff actual expected.entries
  · intro expected actual
    exact comparePoliciesLoop_invalid_error actual expected.entries
  · intro p hnd
    rw [comparePolicies, comparePoliciesLoop_valid_iff p p.entries]
    intro key oc hmem c hc
    subst hc
    exact policyLookup_of_mem_nodup p hnd key (some c) hmem

/-- Witness for C7 at concrete inputs. -/
theorem C7_policy_matching_witness :
    (comparePolicies polAge18 polAge18).valid = true ∧
    (∃ key c, (key, some c) ∈ polAge21.entries ∧
      ((comparePolicies polAge21 polAge18).error =
          some ("Missing policy condition for '".toList ++ key ++ "'".toList) ∨
       (comparePolicies polAge21 polAge18).error =
          some ("Policy condition mismatch for '".toList ++ key ++
            "'".toList))) :=
  ⟨C7_policy_matching.2.2.1 polAge18 (by decide),
   C7_policy_matching.2.1 polAge21 polAge18 (by decide)⟩

/-! Helper lemmas about the verification result invariants. -/

theorem verifyCryptoPhase_invalid_isSome (w : Bytes → Bytes → Bool)
    (vk : Bytes) (dp : Proof)
    (h : (verifyCryptoPhase w vk dp).valid = false) :
    (verifyCryptoPhase w vk dp).error.isSome = true := by
  cases h1 : w dp.prepareProof vk <;> cases h2 : w dp.showProof vk <;>
    simp [verifyCryptoPhase, h1, h2] at h ⊢

theorem verifyProofTry_ok_invariant {w : Bytes → Bytes → Bool} {now : Int}
    {pr : Proof ⊕ SerializedProof} {vk : Bytes} {opts : VerifyOptions}
    {r : VerificationResult}
    (h : verifyProofTry w now pr vk opts = .ok r) :
    r.valid = false → r.error.isSome = true := by
  unfold verifyProofTry at h
  split at h
  · exact Except.noConfusion h
  · unfold verifyChecksOn at h
    split at h
    · injection h with h2; subst h2; intro _; rfl
    · split at h
      · injection h with h2; subst h2; intro _; rfl
      · split at h
        · injection h with h2; subst h2; intro _; rfl
        · split at h
          · split at h
            · injection h with h2; subst h2; intro _; rfl
            · injection h with h2; subst h2
              exact verifyCryptoPhase_invalid_isSome w vk _
          · injection h with h2; subst h2
            exact verifyCryptoPhase_invalid_isSome w vk _

theorem quickVerifyTry_ok_invariant {now : Int} {pr : Proof ⊕ SerializedProof}
    {opts : VerifyOptions} {r : QuickVerifyResult}
    (h : quickVerifyTry now pr opts = .ok r) :
    r.valid = false → r.error.isSome = true := by
  unfold quickVerifyTry at h
  split at h
  · exact Except.noConfusion h
  · unfold quickChecksOn at h
    split at h
    · injection h with h2; subst h2; intro _; rfl
    · split at h
      · injection h with h2; subst h2; intro _; rfl
      · split at h
        · injection h with h2; subst h2; intro _; rfl
        · split at h
          · split at h
            next hpm =>
              injection h with h2
              subst h2
              intro _
              rw [Bool.not_eq_true'] at hpm
              exact comparePoliciesLoop_error_isSome _ _ hpm
            next hpm =>
              injection h with h2; subst h2; intro hv; exact Bool.noConfusion hv
          · injection h with h2; subst h2; intro hv; exact Bool.noConfusion hv

/-- C8: verifyProof and quickVerify never throw: an invalid result always
carries an error message, and an error thrown inside the try body, such as
a deserialization failure on attacker-controlled input, is converted by the
catch clause into a result with valid false and an error message. -/
theorem C8_no_throw :
    ∀ (w : Bytes → Bytes → Bool) (now : Int) (pr : Proof ⊕ SerializedProof)
      (vk : Bytes) (opts : VerifyOptions),
      ((verifyProof w now pr vk opts).valid = false →
        ((verifyProof w now pr vk opts).error).isSome = true) ∧
      ((quickVerify now pr opts).valid = false →
        ((quickVerify now pr opts).error).isSome = true) ∧
      (∀ e, verifyProofTry w now pr vk opts = .error e →
        verifyProof w now pr vk opts =
          { valid := false,
            error := some ("Verification error: ".toList ++ e) }) ∧
      (∀ e, quickVerifyTry now pr opts = .error e →
        quickVerify now pr opts = { valid := false, error := some e }) := by
  intro w now pr vk opts
  refine ⟨?_, ?_, ?_, ?_⟩
  · unfold verifyProof
    cases h : verifyProofTry w now pr vk opts with
    | error e => intro _; rfl
    | ok r => exact verifyProofTry_ok_invariant h
  · unfold quickVerify
    cases h : quickVerifyTry now pr opts with
    | error e => intro _; rfl
    | ok r => exact quickVerifyTry_ok_invariant h
  · intro e he
    unfold verifyProof
    rw [he]
  · intro e he
    unfold quickVerify
    rw [he]

/-- Witness for C8: a serialized proof whose prepareProof field is not valid
base64 makes deserialization throw inside both verifiers, and the thrown
error surfaces as a non-throwing invalid result. -/
theorem C8_no_throw_witness :
    verifyProof (fun _ _ => true) 0 (.inr sBadSerialized) [] {} =
      { valid := false,
        error := some ("Verification error: ".toList ++
          "InvalidCharacterError".toList) } ∧
    quickVerify 0 (.inr sBadSerialized) {} =
      { valid := false, error := some "InvalidCharacterError".toList } ∧
    ((verifyProof (fun _ _ => true) 0 (.inr sBadSerialized) [] {}).error).isSome
      = true :=
  ⟨(C8_no_throw (fun _ _ => true) 0 (.inr sBadSerialized) [] {}).2.2.1
      "InvalidCharacterError".toList (by rfl),
   (C8_no_throw (fun _ _ => true) 0 (.inr sBadSerialized) [] {}).2.2.2
      "InvalidCharacterError".toList (by rfl),
   (C8_no_throw (fun _ _ => true) 0 (.inr sBadSerialized) [] {}).1 (by rfl)⟩

/-- C1 (code bug evidence): verifyProof never consults the sharedCommitment
field — its result is invariant under replacing that field by arbitrary
bytes — and on a proof whose two sub-proof byte strings come from different
credentials it returns valid true as soon as the backend accepts each
sub-proof individually, performing no comparison of the commitments the two
sub-proofs reference. -/
theorem C1_commitment_never_checked :
    (∀ (w : Bytes → Bytes → Bool) (now : Int) (p : Proof) (vk : Bytes)
       (opts : VerifyOptions) (c : Bytes),
       verifyProof w now (.inl { p with sharedCommitment := c }) vk opts =
         verifyProof w now (.inl p) vk opts) ∧
    verifyProof (fun _ _ => true) 0
      (.inl { prepareProof := [1], showProof := [2], sharedCommitment := [9, 9],
              policy := polEmpty, nonce := [], timestamp := 0,
              version := PROTOCOL_VERSION }) [] {} =
      { valid := true, verifiedPolicy := some polEmpty, timestamp := some 0 } := by
  constructor
  · intro w now p vk opts c
    cases p
    rfl
  · rfl

/-- C9: serializing a Proof and deserializing the result recovers every
field exactly, for any Proof whose three binary fields are byte arrays. -/
theorem C9_serialize_roundtrip (p : Proof)
    (h1 : ∀ b ∈ p.prepareProof, b < 256) (h2 : ∀ b ∈ p.showProof, b < 256)
    (h3 : ∀ b ∈ p.sharedCommitment, b < 256) :
    deserializeProof (serializeProof p) = .ok p := by
  simp only [serializeProof, deserializeProof]
  rw [base64UrlDecode_base64UrlEncode _ h1, base64UrlDecode_base64UrlEncode _ h2,
    base64UrlDecode_base64UrlEncode _ h3]

/-- Witness for C9 at a concrete Proof. -/
theorem C9_serialize_roundtrip_witness :
    deserializeProof (serializeProof proofEx) = .ok proofEx :=
  C9_serialize_roundtrip proofEx (by decide) (by decide) (by decide)

/-- C10: an empty expectedNonce string is falsy in JS, so both verifiers
skip the nonce comparison entirely, behaving exactly as if no nonce were
expected; the comparison runs only for a nonempty expectedNonce, in which
case a differing proof nonce fails with the nonce mismatch error. -/
theorem C10_empty_nonce_skips_check :
    (∀ (w : Bytes → Bytes → Bool) (now : Int) (pr : Proof ⊕ SerializedProof)
       (vk : Bytes) (opts : VerifyOptions),
       opts.expectedNonce = some [] →
       verifyProof w now pr vk opts =
         verifyProof w now pr vk { opts with expectedNonce := none } ∧
       quickVerify now pr opts =
         quickVerify now pr { opts with expectedNonce := none }) ∧
    (∀ (w : Bytes → Bytes → Bool) (now : Int) (p : Proof) (vk : Bytes)
       (opts : VerifyOptions) (en : List Char),
       opts.expectedNonce = some en → en ≠ [] →
       p.version = PROTOCOL_VERSION →
       now - p.timestamp ≤ opts.maxProofAge.getD DEFAULT_MAX_PROOF_AGE →
       p.nonce ≠ en →
       verifyProof w now (.inl p) vk opts =
         { valid := false, error := some "Nonce mismatch".toList } ∧
       quickVerify now (.inl p) opts =
         { valid := false, error := some "Nonce mismatch".toList }) := by
  constructor
  · intro w now pr vk opts hen
    obtain ⟨ep, ma, en⟩ := opts
    simp only at hen
    subst hen
    exact ⟨rfl, rfl⟩
  · intro w now p vk opts en hen hne hver hage hnonce
    have hcond : (match opts.expectedNonce with
        | some en => !en.isEmpty && p.nonce != en
        | none => false) = true := by
      rw [hen]
      show (!en.isEmpty && p.nonce != en) = true
      have h1 : en.isEmpty = false := by
        cases en
        · exact absurd rfl hne
        · rfl
      rw [h1]
      simp [hnonce]
    have hver' : ¬(p.version ≠ PROTOCOL_VERSION) := fun hx => hx hver
    have hage' : ¬(now - p.timestamp >
        opts.maxProofAge.getD DEFAULT_MAX_PROOF_AGE) := not_lt.mpr hage
    constructor
    · unfold verifyProof
      have hb : verifyProofTry w now (.inl p) vk opts =
          verifyChecksOn w now vk opts p := rfl
      rw [hb]
      unfold verifyChecksOn
      rw [if_neg hver', if_neg hage', if_pos hcond]
    · unfold quickVerify
      have hb : quickVerifyTry now (.inl p) opts = quickChecksOn now opts p := rfl
      rw [hb]
      unfold quickChecksOn
      rw [if_neg hver', if_neg hage', if_pos hcond]

/-- Witness for C10 at concrete inputs: the empty expected nonce lets a
proof with nonce n1 pass the nonce check, and a nonempty mismatching
expected nonce fails it. -/
theorem C10_empty_nonce_skips_check_witness :
    (verifyProof (fun _ _ => true) 0 (.inl proofEx) []
        { expectedNonce := some [] } =
      verifyProof (fun _ _ => true) 0 (.inl proofEx) []
        { expectedNonce := none }) ∧
    quickVerify 0 (.inl proofEx) { expectedNonce := some "n2".toList } =
      { valid := false, error := some "Nonce mismatch".toList } :=
  ⟨(C10_empty_nonce_skips_check.1 (fun _ _ => true) 0 (.inl proofEx) []
      { expectedNonce := some [] } rfl).1,
   (C10_empty_nonce_skips_check.2 (fun _ _ => true) 0 proofEx []
      { expectedNonce := some "n2".toList } "n2".toList rfl (by decide)
      (by decide) (by decide) (by decide)).2⟩

/-- C2 (code bug evidence): two show calls on the same PreparedState with
the same policy and different nonces hand the backend reblind operation the
identical arguments — in particular the sharedBlinds stored once at prepare
time, since showCredential never draws fresh blinding material — so the two
returned proofs carry the same prepareProof byte sequence (and the same
sharedCommitment), not differing ones as unlinkability requires. -/
theorem C2_show_reuses_blinds (wasm : WasmApi) (sign : List Char → Bytes → Bytes)
    (parseSig : Bytes → Nat × Nat) (hashMsg : List Char → Nat) (now : Int)
    (wallDate : DateYMD) (state : PreparedState) (policy : Policy)
    (n1 n2 : List Char) (params : CircuitParams) (pk : Bytes)
    (dpk : Option Bytes) (pr1 pr2 : Proof)
    (h1 : showCredential wasm sign parseSig hashMsg now wallDate state
      { policy := policy, nonce := n1 } params pk dpk = .ok pr1)
    (h2 : showCredential wasm sign parseSig hashMsg now wallDate state
      { policy := policy, nonce := n2 } params pk dpk = .ok pr2) :
    pr1.prepareProof =
      (wasm.reblind pk state.prepareInstance state.prepareWitness
        state.sharedBlinds).proof ∧
    pr1.prepareProof = pr2.prepareProof ∧
    pr1.sharedCommitment = pr2.sharedCommitment := by
  simp only [showCredential] at h1 h2
  cases hv : validatePolicy policy state with
  | error e =>
    rw [hv] at h1
    exact Except.noConfusion h1
  | ok u =>
    rw [hv] at h1 h2
    injection h1 with h1e
    injection h2 with h2e
    subst h1e
    subst h2e
    exact ⟨rfl, rfl, rfl⟩

/-- Witness for C2: a concrete PreparedState and backend on which two show
calls with nonces n1 and n2 both succeed; the theorem then yields the
equality of their prepareProof bytes. -/
theorem C2_show_reuses_blinds_witness :
    prShow1.prepareProof =
      (wasmEx.reblind [] stateEx.prepareInstance stateEx.prepareWitness
        stateEx.sharedBlinds).proof ∧
    prShow1.prepareProof = prShow2.prepareProof ∧
    prShow1.sharedCommitment = prShow2.sharedCommitment :=
  C2_show_reuses_blinds wasmEx (fun _ _ => []) (fun _ => (0, 0)) (fun _ => 0)
    0 dateEx stateEx polEmpty "n1".toList "n2".toList paramsSmall [] none
    prShow1 prShow2 (by rfl) (by rfl)

/-- C3 counterexample: a parsed credential with three disclosures and only
two free match slots (maxMatches 4 minus the two reserved device-key slots)
is encoded without any CredentialError; the encoder emits exactly
maxMatches slots and sets the disclosure decode flag for only the first two
disclosures, silently dropping the third. -/
theorem C3_counterexample_silent_truncation :
    parsedThreeDisc.disclosures.length = 3 ∧
    paramsSmall.maxMatches = 4 ∧
    (extractMatches parsedThreeDisc paramsSmall).isOk = true ∧
    (encodeClaims parsedThreeDisc paramsSmall).claims.length = 4 ∧
    (encodeClaims parsedThreeDisc paramsSmall).decodeFlags = [0, 0, 1, 1] := by
  refine ⟨rfl, rfl, ?_, rfl, rfl⟩
  rfl

/-- C3 amended: whenever the number of disclosures exceeds the free match
slot capacity maxMatches - 2, circuit-input encoding succeeds — no
CredentialError is raised — using exactly the first maxMatches - 2
disclosures: extractMatches reports a full pattern count of maxMatches and
encodeClaims emits exactly maxMatches slots whose lengths come from the
truncated disclosure list. -/
theorem C3_amended_silent_truncation (parsed : ParsedSDJWT)
    (params : CircuitParams) (payload : List Char)
    (hdec : base64DecodeString parsed.rawPayload = some payload)
    (hcap : 2 ≤ params.maxMatches)
    (hover : params.maxMatches - 2 < parsed.disclosures.length) :
    extractMatches parsed params =
      .ok (extractMatchesData parsed params payload) ∧
    (extractMatchesData parsed params payload).matchesCount =
      params.maxMatches ∧
    (encodeClaims parsed params).claims.length = params.maxMatches ∧
    (encodeClaims parsed params).claimLengths =
      [0, 0] ++ (parsed.disclosures.take (params.maxMatches - 2)).map
        (fun d => d.encoded.length) := by
  have htake : (parsed.disclosures.take (params.maxMatches - 2)).length =
      params.maxMatches - 2 := by
    rw [List.length_take]
    omega
  have hpad : params.maxMatches -
      (2 + (parsed.disclosures.take (params.maxMatches - 2)).length) = 0 := by
    rw [htake]
    omega
  refine ⟨?_, ?_, ?_, ?_⟩
  · unfold extractMatches
    rw [hdec]
  · simp [extractMatchesData, matchPatterns, htake]
    omega
  · simp only [encodeClaims, List.length_append, List.length_replicate,
      List.length_map, htake, hpad]
    omega
  · simp only [encodeClaims, hpad, List.replicate_zero, List.append_nil]

/-- Witness for the amended C3 at the concrete over-capacity credential. -/
theorem C3_amended_silent_truncation_witness :
    extractMatches parsedThreeDisc paramsSmall =
      .ok (extractMatchesData parsedThreeDisc paramsSmall "\x7b\x7d".toList) ∧
    (extractMatchesData parsedThreeDisc paramsSmall
        "\x7b\x7d".toList).matchesCount = paramsSmall.maxMatches ∧
    (encodeClaims parsedThreeDisc paramsSmall).claims.length =
      paramsSmall.maxMatches ∧
    (encodeClaims parsedThreeDisc paramsSmall).claimLengths =
      [0, 0] ++ (parsedThreeDisc.disclosures.take
        (paramsSmall.maxMatches - 2)).map (fun d => d.encoded.length) :=
  C3_amended_silent_truncation parsedThreeDisc paramsSmall "\x7b\x7d".toList
    (by rfl) (by decide) (by decide)

/-- C5 counterexample: on a payload that does not contain the device-key
x-coordinate marker, slot 0 gets matchIndex 0 but matchLength 5 — the
length of the absent pattern — not the matchLength 0 the claim says signals
absence. -/
theorem C5_counterexample_matchLength_not_zero :
    jsIndexOf "\x7b\x7d".toList "\"x\":\"".toList = -1 ∧
    extractMatches parsedNoX paramsSmall =
      .ok (extractMatchesData parsedNoX paramsSmall "\x7b\x7d".toList) ∧
    (extractMatchesData parsedNoX paramsSmall
      "\x7b\x7d".toList).matchIndex[0]? = some 0 ∧
    (extractMatchesData parsedNoX paramsSmall
      "\x7b\x7d".toList).matchLength[0]? = some 5 := by
  refine ⟨by decide, by rfl, by decide, by decide⟩

/-- C5 amended: for every slot whose pattern is absent from the decoded
payload the encoder outputs matchIndex 0, and every matchIndex entry is
nonnegative; but the matchLength of such a slot stays the pattern length —
matchLength 0 occurs only for padding slots beyond the pattern list, so
absence is not signaled through matchLength. -/
theorem C5_amended_absent_pattern (parsed : ParsedSDJWT)
    (params : CircuitParams) (payload : List Char)
    (hdec : base64DecodeString parsed.rawPayload = some payload)
    (i : Nat) (pat : List Char)
    (hpat : (matchPatterns parsed params)[i]? = some pat)
    (habsent : jsIndexOf payload pat = -1) :
    extractMatches parsed params =
      .ok (extractMatchesData parsed params payload) ∧
    (extractMatchesData parsed params payload).matchIndex[i]? = some 0 ∧
    (extractMatchesData parsed params payload).matchLength[i]? =
      some pat.length ∧
    (∀ (j : Nat) (v : Int),
      (extractMatchesData parsed params payload).matchIndex[j]? = some v →
      0 ≤ v) := by
  have hlt : i < (matchPatterns parsed params).length :=
    (List.getElem?_eq_some.mp hpat).1
  refine ⟨?_, ?_, ?_, ?_⟩
  · unfold extractMatches
    rw [hdec]
  · simp only [extractMatchesData]
    rw [List.getElem?_append_left (by simpa using hlt), List.getElem?_map,
      List.getElem?_map, hpat]
    simp [matchEntry, habsent]
  · simp only [extractMatchesData]
    rw [List.getElem?_append_left (by simpa using hlt), List.getElem?_map,
      List.getElem?_map, hpat]
    rfl
  · intro j v hjv
    simp only [extractMatchesData] at hjv
    have hmem := List.getElem?_mem hjv
    rcases List.mem_append.mp hmem with hmem2 | hmem2
    · rcases List.mem_map.mp hmem2 with ⟨e, he, rfl⟩
      rcases List.mem_map.mp he with ⟨q, hq, rfl⟩
      simp only [matchEntry]
      split
      next hge => exact hge
      next => exact le_refl 0
    · rw [List.eq_of_mem_replicate hmem2]

/-- Witness for the amended C5 at the concrete credential whose payload
lacks the x-coordinate marker. -/
theorem C5_amended_absent_pattern_witness :
    extractMatches parsedNoX paramsSmall =
      .ok (extractMatchesData parsedNoX paramsSmall "\x7b\x7d".toList) ∧
    (extractMatchesData parsedNoX paramsSmall
      "\x7b\x7d".toList).matchIndex[0]? = some 0 ∧
    (extractMatchesData parsedNoX paramsSmall
      "\x7b\x7d".toList).matchLength[0]? = some "\"x\":\"".toList.length ∧
    (∀ (j : Nat) (v : Int),
      (extractMatchesData parsedNoX paramsSmall
        "\x7b\x7d".toList).matchIndex[j]? = some v → 0 ≤ v) :=
  C5_amended_absent_pattern parsedNoX paramsSmall "\x7b\x7d".toList (by rfl) 0
    "\"x\":\"".toList (by decide) (by decide)

/-- C6 (code bug evidence): a credential whose trailing tilde segment is a
compact JWT (it contains dots) is not accepted with that segment set aside
as the key-binding assertion: parseSDJWT feeds every nonempty tilde part,
including the trailing key-binding JWT, to the disclosure parser, which
throws on it, so the whole credential is rejected with a CredentialError
naming that segment instead. -/
theorem C6_keybinding_fed_to_disclosures :
    jsIncludes kbSegEx ['.'] = true ∧
    parseSDJWT (fun _ => []) credWithKbEx =
      .error (.credentialError
        ("Failed to parse disclosure: ".toList ++ kbSegEx)) :=
  ⟨by decide, by rfl⟩

/-- C4 amended: in the SDK coordinator OpenAC.prepare the self-check holds:
when the backend reports the fresh prepare proof invalid, prepare raises
ProofError and returns the credential store exactly as it was.  The
lower-level wasm-path prepareCredential, by contrast, returns its
PreparedState without invoking the backend verify at all (see the
counterexample theorem). -/
theorem C4_openac_selfcheck_atomic (sha256Hash : Bytes → Bytes)
    (native : NativeOracle) (store : CredentialStore)
    (options : PrepareOptions)
    (hp : (parseSDJWT sha256Hash options.credential).isOk = true)
    (hkey : options.issuerPublicKey.isSome = true)
    (hv : native.verifyPrepare = false) :
    OpenAC.prepare sha256Hash native store options =
      (store,
       .error (.proofError "Prepare proof verification failed".toList)) := by
  unfold OpenAC.prepare
  cases hparse : parseSDJWT sha256Hash options.credential with
  | error e =>
    rw [hparse] at hp
    exact Bool.noConfusion hp
  | ok parsed =>
    obtain ⟨k, hk⟩ := Option.isSome_iff_exists.mp hkey
    simp only [hk, hv]
    rfl

/-- Witness for the amended C4: a concrete failing self-check leaves the
empty store empty and raises ProofError. -/
theorem C4_openac_selfcheck_atomic_witness :
    OpenAC.prepare (fun _ => []) nativeFailEx [] prepOptsEx =
      ([], .error (.proofError "Prepare proof verification failed".toList)) :=
  C4_openac_selfcheck_atomic (fun _ => []) nativeFailEx [] prepOptsEx
    (by rfl) (by rfl) (by rfl)

/-- C4 counterexample: the wasm-path prepareCredential returns a
PreparedState even when the backend verify operation rejects every proof —
this prepare path performs no proof self-check before returning. -/
theorem C4_counterexample_no_selfcheck :
    (prepareCredential (fun _ => []) (fun _ => (0, 0))
      (fun n => List.replicate n 0) wasmNeverValid 0 prepOptsEx paramsSmall
      []).isOk = true := by
  rfl

end L8zk
